import Mathlib

/-!
Shallow embedding of the two orchestration scripts of the
Brain-to-text-Team60 repository:

* `download_data.py` — fetch-and-verify of the three required HDF5 files
  from Kaggle (with retry/backoff on rate limiting) and a Dryad fallback;
* `run_complete_pipeline.py` — the top-level runner that checks for the
  data, invokes the download script, and hands off to the external
  pipeline script, propagating its exit code.

Python side effects are made explicit: each run of a function produces a
list of `Event`s (messages printed, sleeps performed, network calls
issued) together with its result.  The external world (which Python
libraries imported successfully, whether the credential file exists,
what each Kaggle download attempt does, the contents of the data
directory) is an `Env` record.  Exceptions are `Except String`: the body
of the outer `try` of `download_from_kaggle` is embedded as `kaggleTry`,
whose `Except.error` outcome models an exception reaching the outer
`except` handler.  The effect of a successful download call together
with the zip-extraction loop on the data directory is abstracted as
`Env.dirAfter`; purely decorative banner lines (`"=" * 60`) and the
two-decimal megabyte formatting of file sizes are elided (sizes are
carried in bytes).
-/

/-- One entry of the data directory: a name, whether it is a regular
file (as opposed to a subdirectory), and its size in bytes.  `Path.exists`
in the scripts is true for both kinds of entry; `Path.is_file` only for
regular files. -/
structure FileEntry where
  name : String
  isFile : Bool
  sizeBytes : Nat
deriving DecidableEq

/-- Observable effects of a run: printed lines (`msg`), one printed line
of a file listing with its size (`fileLine`), a `time.sleep` (`sleep`),
the `api.authenticate()` network call (`netAuth`) and the
`api.competition_download_files` call of a given 0-indexed attempt
(`netDownload`). -/
inductive Event where
  | msg (s : String)
  | fileLine (name : String) (sizeBytes : Nat)
  | sleep (seconds : Nat)
  | netAuth
  | netDownload (attempt : Nat)
deriving DecidableEq

/-- The outside world seen by `download_data.py`.  `dlError k = some e`
means the `try` body of attempt `k` (download call, zip extraction)
raises an exception whose string form is `e`; `none` means it completes
and leaves the data directory in state `dirAfter k`.  `authError`
likewise for `KaggleApi()`/`api.authenticate()`. -/
structure Env where
  kaggleAvailable : Bool
  requestsAvailable : Bool
  kaggleJsonExists : Bool
  homeDir : String
  authError : Option String
  dlError : Nat → Option String
  dirAfter : Nat → List FileEntry
  dirStart : List FileEntry

/-- REQUIRED_FILES (download_data.py lines 28-32). -/
def REQUIRED_FILES : List String :=
  ["data_train.hdf5", "data_val.hdf5", "data_test.hdf5"]

/-- Rendering of the DATA_DIR path (BASE_DIR / "data") in printed
messages. -/
def dataDirPath : String := "data"

/-- `(DATA_DIR / f).exists()`: true when the directory has an entry of
that name, regular file or subdirectory alike. -/
def existsIn (dir : List FileEntry) (f : String) : Bool :=
  dir.any (fun e => e.name == f)

/-- Spec-side predicate, for comparison with the code: the name exists
as a regular file directly under the directory. -/
def isFileIn (dir : List FileEntry) (f : String) : Bool :=
  dir.any (fun e => e.name == f && e.isFile)

/-- `(DATA_DIR / f).stat().st_size` for an entry assumed present. -/
def sizeOfName (dir : List FileEntry) (f : String) : Nat :=
  ((dir.find? (fun e => e.name == f)).map FileEntry.sizeBytes).getD 0

/-- Whether `pat` is a prefix of the character list. -/
def prefixOfChars : List Char → List Char → Bool
  | [], _ => true
  | _ :: _, [] => false
  | p :: ps, c :: cs => p == c && prefixOfChars ps cs

/-- Whether `pat` occurs as a contiguous sublist. -/
def hasSubChars (pat : List Char) : List Char → Bool
  | [] => pat.isEmpty
  | c :: cs => prefixOfChars pat (c :: cs) || hasSubChars pat cs

/-- Python `pat in s` substring test. -/
def strContains (s pat : String) : Bool :=
  hasSubChars pat.data s.data

/-- The rate-limit signature test of line 94:
`"429" in str(e) or "Too Many Requests" in str(e)`. -/
def isRateLimitMsg (e : String) : Bool :=
  strContains e ("429") || strContains e ("Too Many Requests")

/-- max_retries (line 61). -/
def maxRetries : Nat := 5

/-- Strict lexicographic order on character lists, by code point — the
order Python string comparison uses. -/
def charsLt : List Char → List Char → Bool
  | [], [] => false
  | [], _ :: _ => true
  | _ :: _, [] => false
  | a :: as, b :: bs => if a < b then true else (a == b && charsLt as bs)

/-- Strict lexicographic order on names. -/
def nameLt (a b : String) : Bool := charsLt a.data b.data

/-- Insertion into a list of entries sorted by name (`sorted` uses the
lexicographic order on names). -/
def insertByName (e : FileEntry) : List FileEntry → List FileEntry
  | [] => [e]
  | x :: xs => if nameLt e.name x.name then e :: x :: xs else x :: insertByName e xs

/-- `sorted(DATA_DIR.glob("*"))`. -/
def sortByName : List FileEntry → List FileEntry
  | [] => []
  | x :: xs => insertByName x (sortByName xs)

/-- The listing loop of lines 86-89: every regular file of the sorted
directory is printed with its size. -/
def listingEvents (dir : List FileEntry) : List Event :=
  (sortByName dir).filterMap
    (fun e => if e.isFile then some (Event.fileLine e.name e.sizeBytes) else none)

deriving instance DecidableEq for Except

/-- Outcome of one iteration of the retry loop: `done r` models `return`
(`Except.ok`) or an exception re-raised out of the loop (`Except.error`);
`next` models `continue`. -/
inductive BodyOut where
  | done (r : Except String Bool)
  | next
deriving DecidableEq

/-- Lines 69-103, the part of the loop body after the backoff sleep: the
download call, the (abstracted) extraction, the all-present check with
its two returns, and the `except` clause classifying the exception. -/
def attemptCore (env : Env) (attempt : Nat) : List Event × BodyOut :=
  match env.dlError attempt with
  | some e =>
    if isRateLimitMsg e then
      if attempt < maxRetries - 1 then
        ([Event.netDownload attempt, Event.msg ("Rate limited. Retrying...")],
         BodyOut.next)
      else
        ([Event.netDownload attempt,
          Event.msg ("Rate limited after 5 attempts."),
          Event.msg ("Please wait a few minutes and try again, or download manually.")],
         BodyOut.done (Except.ok false))
    else
      ([Event.netDownload attempt], BodyOut.done (Except.error e))
  | none =>
    if REQUIRED_FILES.all (fun f => existsIn (env.dirAfter attempt) f) then
      ([Event.netDownload attempt,
        Event.msg ("All data files downloaded successfully!")],
       BodyOut.done (Except.ok true))
    else
      ([Event.netDownload attempt, Event.msg ("Files in data directory:")]
         ++ listingEvents (env.dirAfter attempt)
         ++ [Event.msg ("Some required files are missing after download")],
       BodyOut.done (Except.ok false))

/-- Lines 64-67: on attempts after the first, print the waiting message
and sleep `min(2 ** attempt, 60)` seconds. -/
def sleepEvents (attempt : Nat) : List Event :=
  if 0 < attempt then
    [Event.msg ("Waiting " ++ toString (min (2 ^ attempt) 60)
        ++ " seconds before retry " ++ toString (attempt + 1) ++ "/5..."),
     Event.sleep (min (2 ^ attempt) 60)]
  else []

/-- One full iteration of the loop body (lines 63-103). -/
def loopBody (env : Env) (attempt : Nat) : List Event × BodyOut :=
  (sleepEvents attempt ++ (attemptCore env attempt).1, (attemptCore env attempt).2)

/-- The `for attempt in range(max_retries)` loop, by the number of
iterations remaining; falling off the end is `return False` (line 105). -/
def runAttempts (env : Env) (attempt : Nat) : Nat → List Event × Except String Bool
  | 0 => ([], Except.ok false)
  | remaining + 1 =>
    match loopBody env attempt with
    | (evs, BodyOut.done r) => (evs, r)
    | (evs, BodyOut.next) =>
      ((evs ++ (runAttempts env (attempt + 1) remaining).1),
       (runAttempts env (attempt + 1) remaining).2)

/-- The body of the outer `try` of `download_from_kaggle` (lines 51-105):
authenticate, print the two banners, run the retry loop.  An
`Except.error` result is an exception reaching the outer handler. -/
def kaggleTry (env : Env) : List Event × Except String Bool :=
  match env.authError with
  | some e => ([Event.netAuth], Except.error e)
  | none =>
    ([Event.netAuth,
      Event.msg ("Authenticated with Kaggle API"),
      Event.msg ("Downloading data from competition: brain-to-text-25")]
       ++ (runAttempts env 0 maxRetries).1,
     (runAttempts env 0 maxRetries).2)

/-- download_from_kaggle (lines 35-109): the two guard clauses, then the
outer `try` whose `except` prints the error and returns False. -/
def download_from_kaggle (env : Env) : List Event × Bool :=
  if env.kaggleAvailable = false then
    ([Event.msg ("Kaggle API not available. Install with: pip install kaggle")],
     false)
  else if env.kaggleJsonExists = false then
    ([Event.msg ("Kaggle credentials not found."),
      Event.msg ("Please download kaggle.json from https://www.kaggle.com/settings and place it in:"),
      Event.msg ("  " ++ env.homeDir ++ "/.kaggle")],
     false)
  else
    match kaggleTry env with
    | (evs, Except.ok b) => (evs, b)
    | (evs, Except.error e) =>
      (evs ++ [Event.msg ("Error downloading from Kaggle: " ++ e)], false)

/-- download_from_dryad (lines 112-124): never fetches, prints the
manual instructions, returns False. -/
def download_from_dryad (env : Env) : List Event × Bool :=
  if env.requestsAvailable = false then
    ([Event.msg ("Requests library not available. Install with: pip install requests")],
     false)
  else
    ([Event.msg ("Attempting to download from Dryad repository..."),
      Event.msg ("Note: Dryad may require manual download from:"),
      Event.msg ("  https://datadryad.org/dataset/doi:10.5061/dryad.dncjsxm85")],
     false)

/-- Line 129: the manifest entries that exist under the directory, for
an arbitrary manifest (the scripts instantiate it with REQUIRED_FILES). -/
def existingOf (manifest : List String) (dir : List FileEntry) : List String :=
  manifest.filter (fun f => existsIn dir f)

/-- Line 130: `len(existing) == len(REQUIRED_FILES)` — the all-present
check of the verifier, manifest-parametric. -/
def allPresentOf (manifest : List String) (dir : List FileEntry) : Bool :=
  (existingOf manifest dir).length == manifest.length

/-- Line 141: `[f for f in REQUIRED_FILES if f not in existing]` — the
missing entries, manifest-parametric. -/
def missingOf (manifest : List String) (dir : List FileEntry) : List String :=
  manifest.filter (fun f => !(existingOf manifest dir).contains f)

/-- check_existing_files (lines 127-143). -/
def check_existing_files (dir : List FileEntry) : List Event × Bool :=
  let existing := existingOf REQUIRED_FILES dir
  if existing.length == REQUIRED_FILES.length then
    ([Event.msg ("All data files already exist!")]
       ++ REQUIRED_FILES.map (fun f => Event.fileLine f (sizeOfName dir f)),
     true)
  else if existing.length != 0 then
    ([Event.msg ("Found " ++ toString existing.length ++ "/"
          ++ toString REQUIRED_FILES.length ++ " files:")]
       ++ existing.map (fun f => Event.fileLine f (sizeOfName dir f))
       ++ [Event.msg ("Missing: "
            ++ String.intercalate (", ") (missingOf REQUIRED_FILES dir))],
     false)
  else ([], false)

/-- The manual-download instructions of lines 170-182. -/
def manualEvents : List Event :=
  [Event.msg ("MANUAL DOWNLOAD REQUIRED"),
   Event.msg ("Please download the data files manually:"),
   Event.msg ("1. Kaggle Competition:"),
   Event.msg ("   https://www.kaggle.com/competitions/brain-to-text-25/data"),
   Event.msg ("2. Or from Dryad:"),
   Event.msg ("   https://datadryad.org/dataset/doi:10.5061/dryad.dncjsxm85"),
   Event.msg ("3. Place the files in:"),
   Event.msg ("   " ++ dataDirPath),
   Event.msg ("Then run this script again to verify.")]

/-- main of download_data.py (lines 146-184); the result is the value
handed to `sys.exit`. -/
def mainRun (env : Env) : List Event × Nat :=
  let intro : List Event := [Event.msg ("Brain-to-Text Data Download")]
  let c := check_existing_files env.dirStart
  if c.2 = true then (intro ++ c.1, 0)
  else
    let info : List Event :=
      [Event.msg ("Data directory: " ++ dataDirPath),
       Event.msg ("Required files: " ++ String.intercalate (", ") REQUIRED_FILES)]
    let kHdr : List Event := [Event.msg ("[Method 1] Trying Kaggle API...")]
    let k := download_from_kaggle env
    if k.2 = true then (intro ++ c.1 ++ info ++ kHdr ++ k.1, 0)
    else
      let dHdr : List Event := [Event.msg ("[Method 2] Trying Dryad...")]
      let d := download_from_dryad env
      if d.2 = true then (intro ++ c.1 ++ info ++ kHdr ++ k.1 ++ dHdr ++ d.1, 0)
      else
        (intro ++ c.1 ++ info ++ kHdr ++ k.1 ++ dHdr ++ d.1 ++ manualEvents, 1)

/-- Number of download network calls in a trace. -/
def downloadCount (evs : List Event) : Nat :=
  evs.countP (fun e => match e with | Event.netDownload _ => true | _ => false)

/-- Number of network calls of any kind (authenticate or download). -/
def networkCount (evs : List Event) : Nat :=
  evs.countP (fun e =>
    match e with
    | Event.netAuth => true
    | Event.netDownload _ => true
    | _ => false)

/-- The outside world seen by run_complete_pipeline.py: whether
download_data.py is present and what exit code running it yields,
which `data_<split>.hdf5` files exist, and whether
run_full_pipeline.py is present and what exit code it yields. -/
structure PEnv where
  downloadScriptExists : Bool
  downloadExit : Nat
  hdf5Exists : String → Bool
  pipelineScriptExists : Bool
  pipelineExit : Nat

/-- Lines 40-41 and 54-55: `all((DATA_DIR / f"data_{split}.hdf5").exists() ...)`. -/
def allSplitsExist (p : PEnv) : Bool :=
  (["train", "val", "test"]).all (fun s => p.hdf5Exists s)

/-- Step 1 of run_complete_pipeline.py (lines 60-68): run
run_full_pipeline.py and `sys.exit` its return code, or exit 1 when the
script is missing. -/
def runStepOne (p : PEnv) : Nat :=
  if p.pipelineScriptExists then p.pipelineExit else 1

/-- The module body of run_complete_pipeline.py (lines 29-68); the
result is the process exit code (reaching the end of step 1 always
exits). -/
def runCompletePipeline (p : PEnv) : Nat :=
  if p.downloadScriptExists then
    if p.downloadExit != 0 then
      if allSplitsExist p = false then 1 else runStepOne p
    else runStepOne p
  else
    if allSplitsExist p = false then 1 else runStepOne p

/-- Control reaches step 1 (no `sys.exit(1)` in step 0). -/
def reachesStepOne (p : PEnv) : Bool :=
  if p.downloadScriptExists then
    p.downloadExit == 0 || allSplitsExist p
  else allSplitsExist p

/-- A world where every download attempt raises an HTTP 429 error. -/
def envAllRL : Env :=
  { kaggleAvailable := true, requestsAvailable := true, kaggleJsonExists := true,
    homeDir := "/home/user", authError := none,
    dlError := fun _ => some ("429"),
    dirAfter := fun _ => [], dirStart := [] }

/-- A world where the first download attempt raises a non-rate-limit
error. -/
def envBadDisk : Env :=
  { kaggleAvailable := true, requestsAvailable := true, kaggleJsonExists := true,
    homeDir := "/home/user", authError := none,
    dlError := fun _ => some ("No space left on device"),
    dirAfter := fun _ => [], dirStart := [] }

/-- A world where the download completes but yields only two of the
three required files. -/
def envPartial : Env :=
  { kaggleAvailable := true, requestsAvailable := true, kaggleJsonExists := true,
    homeDir := "/home/user", authError := none,
    dlError := fun _ => none,
    dirAfter := fun _ =>
      [⟨"data_train.hdf5", true, 104857600⟩, ⟨"data_val.hdf5", true, 2097152⟩],
    dirStart := [] }

/-- A world with no ~/.kaggle/kaggle.json credential file. -/
def envNoCred : Env :=
  { kaggleAvailable := true, requestsAvailable := true, kaggleJsonExists := false,
    homeDir := "/home/user", authError := none,
    dlError := fun _ => none, dirAfter := fun _ => [], dirStart := [] }

/-- A world where the Kaggle client library failed to import. -/
def envNoKaggle : Env :=
  { kaggleAvailable := false, requestsAvailable := true, kaggleJsonExists := true,
    homeDir := "/home/user", authError := none,
    dlError := fun _ => none, dirAfter := fun _ => [], dirStart := [] }

/-- A world where `api.authenticate()` raises. -/
def envBadAuth : Env :=
  { kaggleAvailable := true, requestsAvailable := true, kaggleJsonExists := true,
    homeDir := "/home/user", authError := some ("boom"),
    dlError := fun _ => none, dirAfter := fun _ => [], dirStart := [] }

/-- A world where all three required files are already on disk. -/
def envAllPresent : Env :=
  { kaggleAvailable := true, requestsAvailable := true, kaggleJsonExists := true,
    homeDir := "/home/user", authError := none,
    dlError := fun _ => none, dirAfter := fun _ => [],
    dirStart :=
      [⟨"data_train.hdf5", true, 104857600⟩, ⟨"data_val.hdf5", true, 2097152⟩,
       ⟨"data_test.hdf5", true, 1048576⟩] }

/-- A pipeline-runner world: data downloaded fine, run_full_pipeline.py
present and exiting with code 7. -/
def penvSeven : PEnv :=
  { downloadScriptExists := true, downloadExit := 0,
    hdf5Exists := fun _ => true,
    pipelineScriptExists := true, pipelineExit := 7 }

/-- For a manifest entry, membership in `existing` (line 129) agrees
with the existence test itself. -/
theorem existingOf_contains_iff (M : List String) (D : List FileEntry)
    (f : String) (hf : f ∈ M) :
    (existingOf M D).contains f = existsIn D f := by
  by_cases h : existsIn D f = true
  · simp [existingOf, List.elem_iff, List.mem_filter, hf, h]
  · simp only [Bool.not_eq_true] at h
    simp [existingOf, List.elem_iff, List.mem_filter, h]

/-- The `missing` list of line 141 is the manifest filtered to the
entries that do not exist under the directory. -/
theorem missingOf_eq_filter (M : List String) (D : List FileEntry) :
    missingOf M D = M.filter (fun f => !existsIn D f) := by
  unfold missingOf
  refine List.filter_congr (fun f hf => ?_)
  rw [existingOf_contains_iff M D f hf]

/-- The length test of line 130 succeeds exactly when every manifest
entry exists under the directory. -/
theorem allPresentOf_iff (M : List String) (D : List FileEntry) :
    allPresentOf M D = true ↔ ∀ f ∈ M, existsIn D f = true := by
  unfold allPresentOf existingOf
  rw [Nat.beq_eq_true_eq]
  constructor
  · intro h f hf
    exact List.filter_length_eq_length.mp h f hf
  · intro h
    exact List.filter_length_eq_length.mpr h

/-- The download-call count distributes over concatenated traces. -/
theorem downloadCount_append (a b : List Event) :
    downloadCount (a ++ b) = downloadCount a + downloadCount b := by
  simp [downloadCount, List.countP_append]

/-- Backoff sleeps contribute no download calls. -/
theorem downloadCount_sleepEvents (a : Nat) :
    downloadCount (sleepEvents a) = 0 := by
  unfold sleepEvents
  split <;> simp [downloadCount]

/-- Membership is invariant under sorted insertion. -/
theorem mem_insertByName (a e : FileEntry) (l : List FileEntry) :
    a ∈ insertByName e l ↔ a = e ∨ a ∈ l := by
  induction l with
  | nil => simp [insertByName]
  | cons x xs ih =>
    unfold insertByName
    split
    · simp
    · simp [ih]
      tauto

/-- Membership is invariant under sorting by name. -/
theorem mem_sortByName (a : FileEntry) (l : List FileEntry) :
    a ∈ sortByName l ↔ a ∈ l := by
  induction l with
  | nil => simp [sortByName]
  | cons x xs ih => simp [sortByName, mem_insertByName, ih]

/-- Every regular file of the directory is reported by the listing loop
of lines 86-89, with its size. -/
theorem fileLine_mem_listing (dir : List FileEntry) (e : FileEntry)
    (he : e ∈ dir) (hf : e.isFile = true) :
    Event.fileLine e.name e.sizeBytes ∈ listingEvents dir := by
  unfold listingEvents
  rw [List.mem_filterMap]
  exact ⟨e, (mem_sortByName e dir).mpr he, by simp [hf]⟩

/-- The file listing prints no sleep events. -/
theorem sleep_not_mem_listing (dir : List FileEntry) (w : Nat) :
    Event.sleep w ∉ listingEvents dir := by
  unfold listingEvents
  rw [List.mem_filterMap]
  rintro ⟨e, he, hfe⟩
  by_cases hf : e.isFile = true
  · simp [hf] at hfe
  · simp [hf] at hfe

/-- Nothing after the backoff sleep of an attempt sleeps again. -/
theorem sleep_not_mem_core (env : Env) (a : Nat) (w : Nat) :
    Event.sleep w ∉ (attemptCore env a).1 := by
  rcases hd : env.dlError a with _ | e <;> simp only [attemptCore, hd]
  · by_cases h : REQUIRED_FILES.all (fun f => existsIn (env.dirAfter a) f) = true
    · simp [h]
    · simp [h, sleep_not_mem_listing]
  · by_cases h : isRateLimitMsg e = true
    · by_cases h2 : a < maxRetries - 1
      · simp [h, h2]
      · simp [h, h2]
    · simp [h]

/-- After attempts 0..k-1 all rate-limited, a non-rate-limit exception
on attempt k escapes the retry loop as `Except.error` with exactly
`k - attempt + 1` download calls made from attempt `attempt` on. -/
theorem runAttempts_nonRL (env : Env) (k : Nat) (m : String)
    (hm : env.dlError k = some m) (hnr : isRateLimitMsg m = false)
    (hpre : ∀ j, j < k → ∃ mj, env.dlError j = some mj ∧ isRateLimitMsg mj = true) :
    ∀ remaining attempt, attempt + remaining = 5 → attempt ≤ k → k < 5 →
    (runAttempts env attempt remaining).2 = Except.error m ∧
    downloadCount (runAttempts env attempt remaining).1 = k - attempt + 1 := by
  intro remaining
  induction remaining with
  | zero => intro attempt h5 hak hk5; omega
  | succ r ih =>
    intro attempt h5 hak hk5
    rcases Nat.lt_or_ge attempt k with hlt | hge
    · obtain ⟨mj, hmj, hrl⟩ := hpre attempt hlt
      have hbody : loopBody env attempt =
          (sleepEvents attempt ++
            [Event.netDownload attempt, Event.msg ("Rate limited. Retrying...")],
           BodyOut.next) := by
        have ha4 : attempt < maxRetries - 1 := by unfold maxRetries; omega
        simp [loopBody, attemptCore, hmj, hrl, ha4]
      have hih := ih (attempt + 1) (by omega) (by omega) hk5
      have hrw : runAttempts env attempt (r + 1) =
          ((sleepEvents attempt ++
              [Event.netDownload attempt, Event.msg ("Rate limited. Retrying...")])
            ++ (runAttempts env (attempt + 1) r).1,
           (runAttempts env (attempt + 1) r).2) := by
        simp [runAttempts, hbody]
      rw [hrw]
      refine ⟨hih.1, ?_⟩
      rw [downloadCount_append, downloadCount_append, downloadCount_sleepEvents,
        hih.2]
      have hone : downloadCount
          [Event.netDownload attempt, Event.msg ("Rate limited. Retrying...")] = 1 := by
        simp [downloadCount]
      rw [hone]
      omega
    · have hek : attempt = k := by omega
      subst hek
      have hbody : loopBody env attempt =
          (sleepEvents attempt ++ [Event.netDownload attempt],
           BodyOut.done (Except.error m)) := by
        simp [loopBody, attemptCore, hm, hnr]
      have hrw : runAttempts env attempt (r + 1) =
          (sleepEvents attempt ++ [Event.netDownload attempt], Except.error m) := by
        simp [runAttempts, hbody]
      rw [hrw]
      refine ⟨rfl, ?_⟩
      rw [downloadCount_append, downloadCount_sleepEvents]
      have hone : downloadCount [Event.netDownload attempt] = 1 := by
        simp [downloadCount]
      rw [hone]
      omega

/-- Claim C2 (corrected): the all-present check of the verifier returns
true iff every name in the manifest exists directly under the directory
— existence of any kind, since the scripts test `Path.exists`, which is
also true for an entry that is a directory. -/
theorem allPresent_iff_exists_any_kind (M : List String) (D : List FileEntry) :
    allPresentOf M D = true ↔ ∀ f ∈ M, existsIn D f = true :=
  allPresentOf_iff M D

/-- Claim C2, witness: the check applied to a concrete full directory. -/
theorem allPresent_iff_exists_any_kind_witness :
    allPresentOf REQUIRED_FILES
      ([⟨"data_train.hdf5", true, 1⟩, ⟨"data_val.hdf5", true, 2⟩,
        ⟨"data_test.hdf5", true, 3⟩]) = true :=
  (allPresent_iff_exists_any_kind REQUIRED_FILES
    ([⟨"data_train.hdf5", true, 1⟩, ⟨"data_val.hdf5", true, 2⟩,
      ⟨"data_test.hdf5", true, 3⟩])).mpr (by decide)

/-- Claim C2, counterexample to the claim as stated: when the manifest
name exists only as a directory, `Path.exists` is still true, so the
code's all-present check returns true although the name does not exist
as a regular file — the claimed biconditional with the regular-file
reading fails. -/
theorem allPresent_regularFile_counterexample :
    ¬ (allPresentOf (["data_train.hdf5"]) ([⟨"data_train.hdf5", false, 0⟩]) = true ↔
       ∀ f ∈ (["data_train.hdf5"] : List String),
         isFileIn ([⟨"data_train.hdf5", false, 0⟩]) f = true) := by
  decide

/-- Claim C8: `missing()` (line 141) lists exactly the manifest entries
that are not present, in manifest order; in the spec scenario with
manifest a.bin, b.bin, c.bin and only a.bin on disk (1.5 MB) it returns
b.bin, c.bin in that order, and the all-present check is false. -/
theorem missing_manifest_order :
    (∀ (M : List String) (D : List FileEntry),
      missingOf M D = M.filter (fun f => !existsIn D f)) ∧
    missingOf (["a.bin", "b.bin", "c.bin"]) ([⟨"a.bin", true, 1572864⟩])
      = ["b.bin", "c.bin"] ∧
    allPresentOf (["a.bin", "b.bin", "c.bin"]) ([⟨"a.bin", true, 1572864⟩]) = false :=
  ⟨missingOf_eq_filter, by decide, by decide⟩

/-- Claim C8, witness: the general part applied to a concrete manifest
and directory. -/
theorem missing_manifest_order_witness :
    missingOf (["x.bin"]) ([]) = (["x.bin"]).filter (fun f => !existsIn ([]) f) :=
  missing_manifest_order.1 (["x.bin"]) ([])

/-- Claim C5: with no kaggle.json, download_from_kaggle prints the
credential location and acquisition instructions and returns False
(AuthMissing), issuing no authentication and no download network call. -/
theorem missing_credentials_short_circuit (env : Env)
    (h1 : env.kaggleAvailable = true) (h2 : env.kaggleJsonExists = false) :
    download_from_kaggle env =
      ([Event.msg ("Kaggle credentials not found."),
        Event.msg ("Please download kaggle.json from https://www.kaggle.com/settings and place it in:"),
        Event.msg ("  " ++ env.homeDir ++ "/.kaggle")], false) ∧
    networkCount (download_from_kaggle env).1 = 0 := by
  refine ⟨by simp [download_from_kaggle, h1, h2], ?_⟩
  simp [download_from_kaggle, h1, h2, networkCount]

/-- Claim C5, witness. -/
theorem missing_credentials_short_circuit_witness :
    download_from_kaggle envNoCred =
      ([Event.msg ("Kaggle credentials not found."),
        Event.msg ("Please download kaggle.json from https://www.kaggle.com/settings and place it in:"),
        Event.msg ("  " ++ envNoCred.homeDir ++ "/.kaggle")], false) ∧
    networkCount (download_from_kaggle envNoCred).1 = 0 :=
  missing_credentials_short_circuit envNoCred rfl rfl

/-- Claim C7: whenever step 0 of run_complete_pipeline.py does not
`sys.exit(1)` first, the runner exits with exactly the exit code of
run_full_pipeline.py when that script exists, and with code 1 when it
cannot be located. -/
theorem exit_code_propagation (p : PEnv) (h : reachesStepOne p = true) :
    (p.pipelineScriptExists = true → runCompletePipeline p = p.pipelineExit) ∧
    (p.pipelineScriptExists = false → runCompletePipeline p = 1) := by
  have hstep : runCompletePipeline p = runStepOne p := by
    unfold reachesStepOne at h
    unfold runCompletePipeline
    rcases hd : p.downloadScriptExists
    · simp [hd] at h
      simp [h]
    · simp [hd] at h
      rcases he : p.downloadExit == 0
      · have h0 : ¬ p.downloadExit = 0 := by simpa using he
        rcases h with h | h
        · exact absurd h h0
        · simp [h]
      · have h0 : p.downloadExit = 0 := by simpa using he
        simp [h0]
  constructor <;> intro hp <;> simp [hstep, runStepOne, hp]

/-- Claim C7, witness: a child exit code of 7 propagates verbatim. -/
theorem exit_code_propagation_witness :
    reachesStepOne penvSeven = true ∧ runCompletePipeline penvSeven = 7 :=
  ⟨by decide, (exit_code_propagation penvSeven (by decide)).1 rfl⟩

/-- Claim C3: when every download attempt raises a rate-limit error,
download_from_kaggle makes exactly 5 download calls (maxRetries), never
a sixth, prints the rate-limited-exhausted message and returns False;
the embedding is a total function, so the loop always terminates. -/
theorem rateLimited_exhausted_five_attempts (env : Env) (em : Nat → String)
    (h1 : env.kaggleAvailable = true) (h2 : env.kaggleJsonExists = true)
    (h3 : env.authError = none)
    (h4 : ∀ k, env.dlError k = some (em k))
    (h5 : ∀ k, isRateLimitMsg (em k) = true) :
    (download_from_kaggle env).2 = false ∧
    downloadCount (download_from_kaggle env).1 = 5 ∧
    (∀ k, Event.netDownload k ∈ (download_from_kaggle env).1 → k < 5) ∧
    Event.msg ("Rate limited after 5 attempts.") ∈ (download_from_kaggle env).1 := by
  refine ⟨?_, ?_, ?_, ?_⟩ <;>
    simp [download_from_kaggle, kaggleTry, h1, h2, h3, maxRetries, runAttempts,
      loopBody, attemptCore, sleepEvents, h4, h5, downloadCount]

/-- Claim C3, witness: a world whose every attempt answers 429. -/
theorem rateLimited_exhausted_five_attempts_witness :
    (download_from_kaggle envAllRL).2 = false ∧
    downloadCount (download_from_kaggle envAllRL).1 = 5 ∧
    Event.msg ("Rate limited after 5 attempts.") ∈ (download_from_kaggle envAllRL).1 :=
  ⟨(rateLimited_exhausted_five_attempts envAllRL (fun _ => "429")
      rfl rfl rfl (fun _ => rfl) (fun _ => (by decide : isRateLimitMsg ("429") = true))).1,
   (rateLimited_exhausted_five_attempts envAllRL (fun _ => "429")
      rfl rfl rfl (fun _ => rfl) (fun _ => (by decide : isRateLimitMsg ("429") = true))).2.1,
   (rateLimited_exhausted_five_attempts envAllRL (fun _ => "429")
      rfl rfl rfl (fun _ => rfl) (fun _ => (by decide : isRateLimitMsg ("429") = true))).2.2.2⟩

/-- Claim C4: for 1-indexed attempt k with 2 ≤ k ≤ 5, the loop body of
attempt k (0-indexed k-1) begins with the waiting message and a sleep of
exactly min(2^(k-1), 60) seconds; the loop body of the first attempt
contains no sleep at all. -/
theorem backoff_schedule (env : Env) (k : Nat) (hk2 : 2 ≤ k) (hk5 : k ≤ 5) :
    (∃ s rest, (loopBody env (k - 1)).1 =
      Event.msg s :: Event.sleep (min (2 ^ (k - 1)) 60) :: rest) ∧
    (∀ w, Event.sleep w ∉ (loopBody env 0).1) := by
  constructor
  · have hpos : 0 < k - 1 := by omega
    refine ⟨("Waiting " ++ toString (min (2 ^ (k - 1)) 60)
        ++ " seconds before retry " ++ toString ((k - 1) + 1) ++ "/5..."),
      (attemptCore env (k - 1)).1, ?_⟩
    simp [loopBody, sleepEvents, hpos]
  · intro w
    have h0 : sleepEvents 0 = [] := by simp [sleepEvents]
    simp only [loopBody, h0, List.nil_append]
    exact sleep_not_mem_core env 0 w

/-- Claim C4, witness: attempt 3 of a concrete world sleeps
min(2^2, 60) = 4 seconds. -/
theorem backoff_schedule_witness :
    ∃ s rest, (loopBody envAllRL (3 - 1)).1 =
      Event.msg s :: Event.sleep (min (2 ^ (3 - 1)) 60) :: rest :=
  (backoff_schedule envAllRL 3 (by decide) (by decide)).1

/-- Claim C6: when a download attempt completes without error but not
all manifest files are present afterwards, download_from_kaggle makes
exactly one download call (no retry), prints each regular file present
with its size and the missing-files message, and returns False. -/
theorem partial_result_no_retry (env : Env)
    (h1 : env.kaggleAvailable = true) (h2 : env.kaggleJsonExists = true)
    (h3 : env.authError = none) (h4 : env.dlError 0 = none)
    (h5 : REQUIRED_FILES.all (fun f => existsIn (env.dirAfter 0) f) = false) :
    (download_from_kaggle env).2 = false ∧
    downloadCount (download_from_kaggle env).1 = 1 ∧
    Event.msg ("Some required files are missing after download")
      ∈ (download_from_kaggle env).1 ∧
    (∀ e ∈ env.dirAfter 0, e.isFile = true →
      Event.fileLine e.name e.sizeBytes ∈ (download_from_kaggle env).1) := by
  refine ⟨?_, ?_, ?_, ?_⟩ <;>
    simp [download_from_kaggle, kaggleTry, h1, h2, h3, maxRetries, runAttempts,
      loopBody, attemptCore, sleepEvents, h4, h5, downloadCount]
  · simp [listingEvents]
    intro a x hx hisf h
    cases h
    rfl
  · intro e he hf
    have hmem := fileLine_mem_listing (env.dirAfter 0) e he hf
    simp at hmem ⊢
    tauto

/-- Claim C6, witness: a download that yields 2 of the 3 files. -/
theorem partial_result_no_retry_witness :
    (download_from_kaggle envPartial).2 = false ∧
    downloadCount (download_from_kaggle envPartial).1 = 1 ∧
    Event.msg ("Some required files are missing after download")
      ∈ (download_from_kaggle envPartial).1 :=
  ⟨(partial_result_no_retry envPartial rfl rfl rfl rfl (by decide)).1,
   (partial_result_no_retry envPartial rfl rfl rfl rfl (by decide)).2.1,
   (partial_result_no_retry envPartial rfl rfl rfl rfl (by decide)).2.2.1⟩

/-- Claim C1 (corrected): a non-rate-limit exception during a download
attempt is re-raised out of the retry loop at once — no further attempt
is consumed — but it does not reach the caller of
download_from_kaggle: the function's outer handler catches it, prints
it, and returns False, a boolean failure result. -/
theorem nonRateLimitError_no_retry_caught_outer (env : Env) (k : Nat) (m : String)
    (h1 : env.kaggleAvailable = true) (h2 : env.kaggleJsonExists = true)
    (h3 : env.authError = none) (hk : k < 5)
    (hm : env.dlError k = some m) (hnr : isRateLimitMsg m = false)
    (hpre : ∀ j, j < k → ∃ mj, env.dlError j = some mj ∧ isRateLimitMsg mj = true) :
    (kaggleTry env).2 = Except.error m ∧
    downloadCount (kaggleTry env).1 = k + 1 ∧
    download_from_kaggle env =
      ((kaggleTry env).1 ++ [Event.msg ("Error downloading from Kaggle: " ++ m)],
       false) := by
  have hrun := runAttempts_nonRL env k m hm hnr hpre 5 0 (by omega) (by omega) hk
  have hT : kaggleTry env =
      ([Event.netAuth,
        Event.msg ("Authenticated with Kaggle API"),
        Event.msg ("Downloading data from competition: brain-to-text-25")]
         ++ (runAttempts env 0 maxRetries).1,
       (runAttempts env 0 maxRetries).2) := by
    simp [kaggleTry, h3]
  refine ⟨?_, ?_, ?_⟩
  · rw [hT]
    exact hrun.1
  · rw [hT]
    simp only [downloadCount_append]
    have hz : downloadCount
        [Event.netAuth,
         Event.msg ("Authenticated with Kaggle API"),
         Event.msg ("Downloading data from competition: brain-to-text-25")] = 0 := by
      simp [downloadCount]
    rw [hz]
    unfold maxRetries
    rw [hrun.2]
    omega
  · have hT2 : (kaggleTry env).2 = Except.error m := by
      rw [hT]
      exact hrun.1
    unfold download_from_kaggle
    rw [h1, h2]
    simp only [Bool.true_eq_false, if_false]
    rcases hq : kaggleTry env with ⟨evs, rr⟩
    rw [hq] at hT2
    simp at hT2
    rw [hT2]

/-- Claim C1, witness for the corrected statement: a first-attempt disk
error makes exactly one download call and is caught and converted. -/
theorem nonRateLimitError_no_retry_caught_outer_witness :
    (kaggleTry envBadDisk).2 = Except.error ("No space left on device") ∧
    downloadCount (kaggleTry envBadDisk).1 = 0 + 1 ∧
    download_from_kaggle envBadDisk =
      ((kaggleTry envBadDisk).1
        ++ [Event.msg ("Error downloading from Kaggle: "
              ++ "No space left on device")],
       false) :=
  nonRateLimitError_no_retry_caught_outer envBadDisk 0 ("No space left on device")
    rfl rfl rfl (by decide) rfl (by decide)
    (fun j hj => absurd hj (Nat.not_lt_zero j))

/-- Claim C1, counterexample to the claim as stated: in a concrete world
whose first download attempt raises a non-rate-limit error, the try
body of download_from_kaggle ends with that exception, yet the function
returns the boolean failure result False to its caller — the error is
swallowed by the outer handler rather than propagated. -/
theorem nonRateLimitError_swallowed_counterexample :
    (kaggleTry envBadDisk).2 = Except.error ("No space left on device") ∧
    (download_from_kaggle envBadDisk).2 = false ∧
    downloadCount (download_from_kaggle envBadDisk).1 = 1 := by
  refine ⟨by decide, by decide, by decide⟩

/-- Claim C10: download_from_kaggle never lets an exception escape: if
the Kaggle library is unavailable it returns False with only the
install-hint message, and whenever the body of its outer try ends in an
exception, the outer handler appends the printed error message and
returns False. -/
theorem download_never_raises (env : Env) :
    (env.kaggleAvailable = false →
      download_from_kaggle env =
        ([Event.msg ("Kaggle API not available. Install with: pip install kaggle")],
         false)) ∧
    (∀ evs m, env.kaggleAvailable = true → env.kaggleJsonExists = true →
      kaggleTry env = (evs, Except.error m) →
      download_from_kaggle env =
        (evs ++ [Event.msg ("Error downloading from Kaggle: " ++ m)], false)) := by
  constructor
  · intro h
    simp [download_from_kaggle, h]
  · intro evs m h1 h2 hq
    unfold download_from_kaggle
    rw [h1, h2]
    simp only [Bool.true_eq_false, if_false]
    rw [hq]

/-- Claim C10, witness: the import-failure branch, and an
authentication exception converted to a False return. -/
theorem download_never_raises_witness :
    download_from_kaggle envNoKaggle =
      ([Event.msg ("Kaggle API not available. Install with: pip install kaggle")],
       false) ∧
    download_from_kaggle envBadAuth =
      ([Event.netAuth] ++ [Event.msg ("Error downloading from Kaggle: " ++ "boom")],
       false) :=
  ⟨(download_never_raises envNoKaggle).1 rfl,
   (download_never_raises envBadAuth).2 ([Event.netAuth]) ("boom") rfl rfl rfl⟩

/-- Claim C9: when every required file already exists in the data
directory, main of download_data.py returns exit code 0, performs zero
network calls, and its whole trace is the banner plus the
already-exist report — neither fetch path is entered, so a second run
after a successful one does no network work. -/
theorem all_present_skips_fetch (env : Env)
    (h : ∀ f ∈ REQUIRED_FILES, existsIn env.dirStart f = true) :
    (mainRun env).2 = 0 ∧ networkCount (mainRun env).1 = 0 ∧
    mainRun env =
      ([Event.msg ("Brain-to-Text Data Download")]
        ++ (check_existing_files env.dirStart).1, 0) := by
  have hall : ((existingOf REQUIRED_FILES env.dirStart).length
      == REQUIRED_FILES.length) = true := (allPresentOf_iff _ _).mpr h
  have hchk : check_existing_files env.dirStart =
      ([Event.msg ("All data files already exist!")]
        ++ REQUIRED_FILES.map
            (fun f => Event.fileLine f (sizeOfName env.dirStart f)),
       true) := by
    unfold check_existing_files
    rw [if_pos hall]
  refine ⟨?_, ?_, ?_⟩
  · simp [mainRun, hchk]
  · simp [mainRun, hchk, networkCount, List.countP_map]
  · simp [mainRun, hchk]

/-- Claim C9, witness: a directory already holding all three files. -/
theorem all_present_skips_fetch_witness :
    (mainRun envAllPresent).2 = 0 ∧ networkCount (mainRun envAllPresent).1 = 0 :=
  ⟨(all_present_skips_fetch envAllPresent (by decide)).1,
   (all_present_skips_fetch envAllPresent (by decide)).2.1⟩
